import Mathlib

/-!
Verification development for an AI-driven Streamlit app generator.

The repository consists of a workspace file store (`utils/file_utils.py`),
a command codec / executor for model output (`services/gemini_service.py`),
a preview process manager (`services/preview_service.py`) and an
orchestrating UI script (`app.py`).

We embed the relevant program logic shallowly:

* Python strings are `List Char`; Python string methods (`strip`,
  `startswith`, `endswith`, `in`, slicing, `lower`) are modelled by
  executable functions mirroring CPython semantics on the code points
  the program manipulates (ASCII in all observed inputs).
* The workspace directory is an association list from filename to file
  content; a write that succeeds replaces the whole content, a delete
  removes the entry.  Genuine I/O faults (disk errors) are outside the
  model: the modelled `open`/`write`/`remove` calls succeed, which is the
  happy I/O path of the source.
* `st.session_state` is an explicit `AppState` record threaded through
  the functions that the source mutates it from.
* `json.loads` is an executable recursive-descent JSON reader over
  `List Char` mirroring the grammar CPython's `json` module accepts.
* Exceptions that escape a modelled function are represented with
  `Except`/`PyResult` values carrying the exception class name.
-/

/-! ## Python string primitives -/

/-- Whitespace stripped by `str.strip()` (ASCII subset, which covers every
string the program strips). -/
def isPySpace (c : Char) : Bool :=
  c = ' ' || c = '\t' || c = '\n' || c = '\r' || c = '\x0b' || c = '\x0c'

/-- Python `needle in s` substring test (`s` is searched for `needle`). -/
def pyContains : List Char → List Char → Bool
  | [], sub => sub.isEmpty
  | c :: t, sub => sub.isPrefixOf (c :: t) || pyContains t sub

/-- Python `s.startswith(pre)`. -/
def pyStartsWith (s pre : List Char) : Bool :=
  pre.isPrefixOf s

/-- Python `s.endswith(suf)`. -/
def pyEndsWith (s suf : List Char) : Bool :=
  suf.reverse.isPrefixOf s.reverse

/-- Python `s.lower()` (ASCII case folding). -/
def pyLower (s : List Char) : List Char :=
  s.map Char.toLower

/-- Python `s.strip()`: drop whitespace from both ends. -/
def pyStrip (s : List Char) : List Char :=
  (((s.dropWhile isPySpace).reverse.dropWhile isPySpace).reverse)

/-- Python slice `s[a:-b]` (for `b > 0`), as used by the fence stripper. -/
def pySlice (a b : Nat) (s : List Char) : List Char :=
  (s.drop a).take (s.length - a - b)

/-- Lexicographic `<=` on strings, as used by Python `sorted`. -/
def pyLe : List Char → List Char → Bool
  | [], _ => true
  | _ :: _, [] => false
  | a :: as, b :: bs => if a = b then pyLe as bs else decide (a < b)

/-! ## Workspace store (`utils/file_utils.py`)

The workspace directory is a flat association list `filename ↦ content`.
`fsGet` is `open(..., "r")` + read, `fsSet` is `open(..., "w")` + write
(create or full overwrite), `fsErase` is `os.remove`. -/

abbrev FileName := List Char

abbrev FS := List (FileName × List Char)

def fsGet : FS → FileName → Option (List Char)
  | [], _ => none
  | (k, v) :: rest, f => if k = f then some v else fsGet rest f

def fsSet : FS → FileName → List Char → FS
  | [], f, c => [(f, c)]
  | (k, v) :: rest, f, c => if k = f then (f, c) :: rest else (k, v) :: fsSet rest f c

def fsErase (fs : FS) (f : FileName) : FS :=
  fs.filter (fun kv => !(kv.1 = f))

/-- Suffix of a filename as computed by `pathlib.PurePath.suffix`:
the part from the last dot, provided that dot is neither the first
character nor the last one; otherwise the empty string. -/
def pySuffix (name : List Char) : List Char :=
  let i := (name.reverse.findIdx? (fun c => c = '.')).map (fun j => name.length - 1 - j)
  match i with
  | some idx => if 0 < idx ∧ idx < name.length - 1 then name.drop idx else []
  | none => []

/-- Sorted insertion, building `sorted(...)` below. -/
def insertLe (x : FileName) : List FileName → List FileName
  | [] => [x]
  | y :: ys => if pyLe x y then x :: y :: ys else y :: insertLe x ys

/-- Python `sorted` under lexicographic string order. -/
def pySorted (l : List FileName) : List FileName :=
  l.foldr insertLe []

/-- `file_utils.get_workspace_python_files`: names of regular files directly
in the workspace whose `pathlib` suffix is `.py`, sorted ascending. -/
def get_workspace_python_files (fs : FS) : List FileName :=
  pySorted ((fs.map Prod.fst).filter (fun n => pySuffix n = ".py".toList))

/-- The path check shared by `read_file`, `save_file` and
`delete_file_from_workspace`:
`".." in filename or filename.startswith(("/", "\\"))`. -/
def invalid_path (filename : List Char) : Bool :=
  pyContains filename "..".toList
    || (pyStartsWith filename "/".toList || pyStartsWith filename "\\".toList)

/-- The extension check `filename.endswith(".py")` of `save_file` and of
the executor's `create_update` pre-check. -/
def has_py_ext (filename : List Char) : Bool :=
  pyEndsWith filename ".py".toList

/-- `file_utils.read_file`: `None` on empty name, on a name containing
`..` or starting with `/` or `\`, and on `FileNotFoundError`; otherwise
the file text. -/
def read_file (filename : FileName) (fs : FS) : Option (List Char) :=
  if filename.isEmpty then none
  else if invalid_path filename then none
  else fsGet fs filename

/-- `file_utils.save_file`: validates the name (non-empty, no `..`, no
leading `/` or `\`, must end with `.py`), then overwrites the target.
Returns the success flag together with the updated workspace. -/
def save_file (filename : FileName) (content : List Char) (fs : FS) : Bool × FS :=
  if filename.isEmpty then (false, fs)
  else if invalid_path filename then (false, fs)
  else if !has_py_ext filename then (false, fs)
  else (true, fsSet fs filename content)

/-- `file_utils.delete_file_from_workspace`: validates the name the same
way as `read_file` (no extension requirement), removes the file when
present, and reports success also when the file was already absent. -/
def delete_file_from_workspace (filename : FileName) (fs : FS) : Bool × FS :=
  if filename.isEmpty then (false, fs)
  else if invalid_path filename then (false, fs)
  else if (fsGet fs filename).isSome then (true, fsErase fs filename)
  else (true, fs)

/-! ## JSON values and `json.loads`

`Json` models the Python values produced by `json.loads`: `None`, bools,
numbers (kept as their matched lexeme — no claim observes numeric value),
strings, lists and dicts (as key/value lists in document order; lookups
take the last occurrence, matching dict construction). -/

inductive Json where
  | null : Json
  | bool : Bool → Json
  | num : List Char → Json
  | str : List Char → Json
  | arr : List Json → Json
  | obj : List (List Char × Json) → Json

/-- Whitespace accepted between JSON tokens by CPython's `json` module. -/
def skipWs (l : List Char) : List Char :=
  l.dropWhile (fun c => c = ' ' || c = '\t' || c = '\n' || c = '\r')

def hexVal (c : Char) : Option Nat :=
  if c.isDigit then some (c.toNat - 48)
  else if 'a' ≤ c ∧ c ≤ 'f' then some (c.toNat - 87)
  else if 'A' ≤ c ∧ c ≤ 'F' then some (c.toNat - 55)
  else none

/-- Body of a JSON string after the opening quote (strict mode: raw
control characters are rejected; the standard escapes and `\uXXXX` are
decoded). Returns the decoded text and the input after the closing
quote. -/
def parseStringBody : Nat → List Char → List Char → Option (List Char × List Char)
  | 0, _, _ => none
  | _ + 1, [], _ => none
  | f + 1, c :: rest, acc =>
    if c = '"' then some (acc.reverse, rest)
    else if c = '\\' then
      match rest with
      | [] => none
      | e :: rest2 =>
        if e = '"' then parseStringBody f rest2 ( '"' :: acc)
        else if e = '\\' then parseStringBody f rest2 ( '\\' :: acc)
        else if e = '/' then parseStringBody f rest2 ( '/' :: acc)
        else if e = 'b' then parseStringBody f rest2 ( '\x08' :: acc)
        else if e = 'f' then parseStringBody f rest2 ( '\x0c' :: acc)
        else if e = 'n' then parseStringBody f rest2 ( '\n' :: acc)
        else if e = 'r' then parseStringBody f rest2 ( '\r' :: acc)
        else if e = 't' then parseStringBody f rest2 ( '\t' :: acc)
        else if e = 'u' then
          match rest2 with
          | h1 :: h2 :: h3 :: h4 :: rest3 =>
            match hexVal h1, hexVal h2, hexVal h3, hexVal h4 with
            | some a, some b, some c3, some d =>
              parseStringBody f rest3 (Char.ofNat (a * 4096 + b * 256 + c3 * 16 + d) :: acc)
            | _, _, _, _ => none
          | _ => none
        else none
    else if c.toNat < 32 then none
    else parseStringBody f rest (c :: acc)

/-- Optional fraction and exponent parts of a number
(`(\.\d+)?([eE][-+]?\d+)?` in CPython's NUMBER_RE). -/
def parseFracExp (l : List Char) : List Char × List Char :=
  let fr :=
    match l with
    | c :: r =>
      if c = '.' then
        let ds := r.takeWhile Char.isDigit
        if ds.isEmpty then (([] : List Char), l) else ( '.' :: ds, r.drop ds.length)
      else ([], l)
    | [] => ([], l)
  let l1 := fr.2
  let ex :=
    match l1 with
    | c :: r =>
      if c = 'e' || c = 'E' then
        match r with
        | d :: r2 =>
          if d = '+' || d = '-' then
            let ds := r2.takeWhile Char.isDigit
            if ds.isEmpty then (([] : List Char), l1) else (c :: d :: ds, r2.drop ds.length)
          else
            let ds := r.takeWhile Char.isDigit
            if ds.isEmpty then (([] : List Char), l1) else (c :: ds, r.drop ds.length)
        | [] => ([], l1)
      else ([], l1)
    | [] => ([], l1)
  (fr.1 ++ ex.1, ex.2)

/-- Number token per CPython's `json` NUMBER_RE:
`(-?(?:0|[1-9]\d*))(\.\d+)?([eE][-+]?\d+)?`. Returns the lexeme. -/
def parseNumberLex (l : List Char) : Option (List Char × List Char) :=
  let sl :=
    match l with
    | c :: r => if c = '-' then (([ '-' ] : List Char), r) else ([], l)
    | [] => ([], l)
  match sl.2 with
  | [] => none
  | c :: r =>
    if c = '0' then
      let fe := parseFracExp r
      some (sl.1 ++ [ '0' ] ++ fe.1, fe.2)
    else if c.isDigit then
      let ds := r.takeWhile Char.isDigit
      let fe := parseFracExp (r.drop ds.length)
      some (sl.1 ++ (c :: ds) ++ fe.1, fe.2)
    else none

mutual

/-- One JSON value (with leading whitespace skipped), fuelled. -/
def parseValue : Nat → List Char → Option (Json × List Char)
  | 0, _ => none
  | fuel + 1, l =>
    match skipWs l with
    | [] => none
    | c :: rest =>
      if c = '\x7b' then
        match skipWs rest with
        | d :: r2 =>
          if d = '\x7d' then some (Json.obj [], r2)
          else
            match parseObjItems fuel rest with
            | some (kvs, r) => some (Json.obj kvs, r)
            | none => none
        | [] => none
      else if c = '[' then
        match skipWs rest with
        | d :: r2 =>
          if d = ']' then some (Json.arr [], r2)
          else
            match parseArrItems fuel rest with
            | some (vs, r) => some (Json.arr vs, r)
            | none => none
        | [] => none
      else if c = '"' then
        match parseStringBody (fuel + 1) rest [] with
        | some (s, r) => some (Json.str s, r)
        | none => none
      else if c = 't' then
        if "rue".toList.isPrefixOf rest then some (Json.bool true, rest.drop 3) else none
      else if c = 'f' then
        if "alse".toList.isPrefixOf rest then some (Json.bool false, rest.drop 4) else none
      else if c = 'n' then
        if "ull".toList.isPrefixOf rest then some (Json.null, rest.drop 3) else none
      else
        match parseNumberLex (c :: rest) with
        | some (lex, r) => some (Json.num lex, r)
        | none => none

/-- Comma-separated array items up to the closing bracket. -/
def parseArrItems : Nat → List Char → Option (List Json × List Char)
  | 0, _ => none
  | f + 1, l =>
    match parseValue f l with
    | none => none
    | some (v, r) =>
      match skipWs r with
      | c :: r2 =>
        if c = ',' then
          match parseArrItems f r2 with
          | some (vs, r3) => some (v :: vs, r3)
          | none => none
        else if c = ']' then some ([v], r2)
        else none
      | [] => none

/-- Comma-separated `"key": value` members up to the closing brace. -/
def parseObjItems : Nat → List Char → Option (List (List Char × Json) × List Char)
  | 0, _ => none
  | f + 1, l =>
    match skipWs l with
    | c :: r1 =>
      if c = '"' then
        match parseStringBody (f + 1) r1 [] with
        | some (k, r2) =>
          match skipWs r2 with
          | d :: r3 =>
            if d = ':' then
              match parseValue f r3 with
              | some (v, r4) =>
                match skipWs r4 with
                | e :: r5 =>
                  if e = ',' then
                    match parseObjItems f r5 with
                    | some (kvs, r6) => some ((k, v) :: kvs, r6)
                    | none => none
                  else if e = '\x7d' then some ([(k, v)], r5)
                  else none
                | [] => none
              | none => none
            else none
          | [] => none
        | none => none
      else none
    | [] => none

end

/-- `json.loads`: parse one JSON document, requiring only whitespace after
it; `none` models `json.JSONDecodeError`. The fuel bound is generous—each
recursive step either consumes input or moves to a strictly smaller
sub-task, so `8 * length + 8` can never be exhausted on accepted input. -/
def json_loads (l : List Char) : Option Json :=
  match parseValue (8 * l.length + 8) l with
  | some (v, rest) => if (skipWs rest).isEmpty then some v else none
  | none => none

/-! ## JSON helpers used by the executor -/

/-- Lookup in a parsed object, last occurrence winning (a JSON object with
a repeated key loads to a dict keeping the last value). `None` when the
key is absent or the value is not an object — matching `dict.get`. -/
def assocGetLast : List (List Char × Json) → List Char → Option Json
  | [], _ => none
  | (k, v) :: rest, key =>
    match assocGetLast rest key with
    | some r => some r
    | none => if k = key then some v else none

def jsonGet : Json → List Char → Option Json
  | Json.obj kvs, key => assocGetLast kvs key
  | _, _ => none

def Json.isArr : Json → Bool
  | Json.arr _ => true
  | _ => false

def Json.isObj : Json → Bool
  | Json.obj _ => true
  | _ => false

/-- Python truthiness of a loaded JSON value (`None`, `False`, numeric
zero, and empty strings / lists / dicts are falsy). -/
def numIsZero (lex : List Char) : Bool :=
  (lex.takeWhile (fun c => !(c = 'e' || c = 'E'))).all (fun c => !c.isDigit || c = '0')

def jsonTruthy : Option Json → Bool
  | none => false
  | some Json.null => false
  | some (Json.bool b) => b
  | some (Json.num lex) => !numIsZero lex
  | some (Json.str s) => !s.isEmpty
  | some (Json.arr vs) => !vs.isEmpty
  | some (Json.obj kvs) => !kvs.isEmpty

/-- Python `value is not None` on a `dict.get` result. -/
def contentNotNone : Option Json → Bool
  | none => false
  | some Json.null => false
  | some _ => true

/-- Python `value == "s"` where the left side is a loaded JSON value (a
`dict.get` result): true exactly when it is that string. -/
def jsonIsStr (o : Option Json) (s : List Char) : Bool :=
  match o with
  | some (Json.str t) => t = s
  | _ => false

mutual

/-- Python `repr` of a loaded JSON value, as interpolated by f-strings for
container values (string escapes inside `repr` are elided — no theorem
observes these rendered texts). -/
def pyRepr : Json → List Char
  | Json.null => "None".toList
  | Json.bool true => "True".toList
  | Json.bool false => "False".toList
  | Json.num lex => lex
  | Json.str s => Char.ofNat 39 :: (s ++ [Char.ofNat 39])
  | Json.arr vs => '[' :: (pyReprList vs ++ [ ']' ])
  | Json.obj kvs => Char.ofNat 123 :: (pyReprFields kvs ++ [Char.ofNat 125])

def pyReprList : List Json → List Char
  | [] => []
  | [v] => pyRepr v
  | v :: rest => pyRepr v ++ ( ',' :: ' ' :: pyReprList rest)

def pyReprFields : List (List Char × Json) → List Char
  | [] => []
  | [(k, v)] => Char.ofNat 39 :: (k ++ [Char.ofNat 39, ':', ' ']) ++ pyRepr v
  | (k, v) :: rest =>
    Char.ofNat 39 :: (k ++ [Char.ofNat 39, ':', ' ']) ++ pyRepr v ++ ( ',' :: ' ' :: pyReprFields rest)

end

/-- Python `str(x)` of a `dict.get` result, as interpolated by f-strings
(`str` of a Python string is the string itself; `str(None)` is `None`). -/
def pyStrVal : Option Json → List Char
  | none => "None".toList
  | some (Json.str s) => s
  | some j => pyRepr j

/-- JSON escaping for `json.dumps` output strings. -/
def hexDigit (n : Nat) : Char :=
  if n < 10 then Char.ofNat (48 + n) else Char.ofNat (97 + n - 10)

def jsonEscape (s : List Char) : List Char :=
  s.foldr
    (fun c acc =>
      if c = '"' then '\\' :: '"' :: acc
      else if c = '\\' then '\\' :: '\\' :: acc
      else if c = '\n' then '\\' :: 'n' :: acc
      else if c = '\r' then '\\' :: 'r' :: acc
      else if c = '\t' then '\\' :: 't' :: acc
      else if c.toNat < 32 then
        '\\' :: 'u' :: '0' :: '0' :: hexDigit (c.toNat / 16) :: hexDigit (c.toNat % 16) :: acc
      else c :: acc)
    []

mutual

/-- `json.dumps` with the default separators `(", ", ": ")`. -/
def Json.dumps : Json → List Char
  | Json.null => "null".toList
  | Json.bool true => "true".toList
  | Json.bool false => "false".toList
  | Json.num lex => lex
  | Json.str s => '"' :: (jsonEscape s ++ [ '"' ])
  | Json.arr vs => '[' :: (dumpsList vs ++ [ ']' ])
  | Json.obj kvs => Char.ofNat 123 :: (dumpsFields kvs ++ [Char.ofNat 125])

def dumpsList : List Json → List Char
  | [] => []
  | [v] => Json.dumps v
  | v :: rest => Json.dumps v ++ ( ',' :: ' ' :: dumpsList rest)

def dumpsFields : List (List Char × Json) → List Char
  | [] => []
  | [(k, v)] => '"' :: (jsonEscape k ++ [ '"', ':', ' ' ]) ++ Json.dumps v
  | (k, v) :: rest =>
    '"' :: (jsonEscape k ++ [ '"', ':', ' ' ]) ++ Json.dumps v ++ ( ',' :: ' ' :: dumpsFields rest)

end

/-! ## Session state (`st.session_state`, per `utils/session_manager.py`) -/

structure AppState where
  fs : FS
  selected_file : Option FileName
  file_content_on_load : List Char
  editor_unsaved_content : List Char
  last_saved_content : List Char
  preview_process : Option Nat
  preview_port : Option Nat
  preview_url : Option (List Char)
  preview_file : Option FileName
deriving DecidableEq

/-- Fresh session state over a given workspace (the defaults installed by
`initialize_session_state`). -/
def initState (fs : FS) : AppState :=
  { fs := fs
    selected_file := none
    file_content_on_load := []
    editor_unsaved_content := []
    last_saved_content := []
    preview_process := none
    preview_port := none
    preview_url := none
    preview_file := none }

/-! ## Command codec and executor (`services/gemini_service.py`) -/

/-- `gemini_service._clean_ai_response_text`: strip whitespace, then one
markdown fence wrapper — a ```` ```json ```` tagged fence or a bare
```` ``` ```` fence — if present. -/
def clean_ai_response_text (t : List Char) : List Char :=
  let text := pyStrip t
  if pyStartsWith text "```json".toList && pyEndsWith text "```".toList then
    pyStrip (pySlice 7 3 text)
  else if pyStartsWith text "```".toList && pyEndsWith text "```".toList then
    pyStrip (pySlice 3 3 text)
  else text

/-- The synthetic chat command dict the executor and adapter build for
errors and warnings. -/
def chatObj (content : List Char) : Json :=
  Json.obj [("action".toList, Json.str "chat".toList), ("content".toList, Json.str content)]

/-- `executed_commands_list[-1]["status"] = s`: set the `status` key on the
displayed copy of a command dict (appended last, so lookups see it). -/
def setStatus (cmd : Json) (s : List Char) : Json :=
  match cmd with
  | Json.obj kvs => Json.obj (kvs ++ [("status".toList, Json.str s)])
  | j => j

/-- One iteration of the command loop in
`gemini_service.parse_and_execute_ai_commands`. Returns the outcome entry
for the display list and the updated state, or `Except.error` with the
exception class name and the state at the raise when the Python body
would raise out of the loop (caught by the function's outer
`except Exception`). -/
def exec_command (st : AppState) (cmd : Json) : Except (List Char × AppState) (Json × AppState) :=
  match cmd with
  | Json.obj _ =>
    let action := jsonGet cmd "action".toList
    let filename := jsonGet cmd "filename".toList
    let content := jsonGet cmd "content".toList
    if jsonIsStr action "create_update".toList then
      if jsonTruthy filename && contentNotNone content then
        match filename with
        | some (Json.str fn) =>
          if !has_py_ext fn then
            Except.ok (setStatus cmd "failed: invalid filename".toList, st)
          else
            match content with
            | some (Json.str c) =>
              let res := save_file fn c st.fs
              if res.1 then
                let st1 : AppState := { st with fs := res.2 }
                let st2 : AppState :=
                  if st1.selected_file = some fn then
                    { st1 with file_content_on_load := c, editor_unsaved_content := c,
                               last_saved_content := c }
                  else st1
                Except.ok (setStatus cmd "success".toList, st2)
              else
                Except.ok (setStatus cmd "failed: save error".toList, { st with fs := res.2 })
            | _ =>
              -- non-text content: `f.write(content)` raises TypeError inside
              -- `save_file`, which catches it and returns False
              Except.ok (setStatus cmd "failed: save error".toList, st)
        | _ =>
          -- truthy non-string filename: `filename.endswith(".py")` raises
          Except.error ("AttributeError".toList, st)
      else
        Except.ok (setStatus cmd "failed: missing parameters".toList, st)
    else if jsonIsStr action "delete".toList then
      if jsonTruthy filename then
        match filename with
        | some (Json.str fn) =>
          let res := delete_file_from_workspace fn st.fs
          if res.1 then
            let st1 : AppState := { st with fs := res.2 }
            let st2 : AppState :=
              if st1.selected_file = some fn then
                { st1 with selected_file := none, file_content_on_load := [],
                           editor_unsaved_content := [], last_saved_content := [] }
              else st1
            Except.ok (setStatus cmd "success".toList, st2)
          else
            Except.ok (setStatus cmd "failed: delete error".toList, { st with fs := res.2 })
        | _ =>
          -- truthy non-string filename: `".." in filename` raises TypeError
          Except.error ("TypeError".toList, st)
      else
        Except.ok (setStatus cmd "failed: missing filename".toList, st)
    else if jsonIsStr action "chat".toList then
      Except.ok (setStatus cmd "chat message".toList, st)
    else
      Except.ok (setStatus cmd ("failed: unknown action (".toList ++ pyStrVal action ++ ")".toList), st)
  | _ =>
    Except.ok (chatObj ("AI Warning: Invalid command format: ".toList ++ pyStrVal (some cmd)), st)

/-- The command loop: array order, accumulating display entries. -/
def exec_commands : List Json → AppState → List Json →
    Except (List Char × AppState) (List Json × AppState)
  | [], st, acc => Except.ok (acc, st)
  | c :: rest, st, acc =>
    match exec_command st c with
    | Except.ok (entry, st1) => exec_commands rest st1 (acc ++ [entry])
    | Except.error e => Except.error e

/-- `gemini_service.parse_and_execute_ai_commands`: strip fences, decode
JSON, require a top-level array, then run the batch. Returns the display
list and the resulting state. -/
def parse_and_execute_ai_commands (t : List Char) (st : AppState) : List Json × AppState :=
  match json_loads (clean_ai_response_text t) with
  | none =>
    ([chatObj ("AI Error: Invalid JSON received. Response: ".toList ++ t)], st)
  | some v =>
    match v with
    | Json.arr cmds =>
      match exec_commands cmds st [] with
      | Except.ok (outs, st1) => (outs, st1)
      | Except.error (msg, st1) =>
        ([chatObj ("Critical Error: Could not process AI commands due to: ".toList ++ msg)], st1)
    | _ => ([chatObj "AI Error: Response was not a list of commands.".toList], st)

/-- The codec entry point: strip fences, then `json.loads`. -/
def decode_ai_response (t : List Char) : Option Json :=
  json_loads (clean_ai_response_text t)

/-! ## Preview process manager (`services/preview_service.py`) -/

/-- Outcome of the signalling interaction with the OS process inside
`stop_preview`, covering every path of the source's try/except:
graceful terminate, timeout-then-kill, the process already having
exited, `ProcessLookupError`, and any other exception while signalling
(caught at the `except Exception` arm). -/
inductive ProcStopOutcome where
  | terminated : ProcStopOutcome
  | killedAfterTimeout : ProcStopOutcome
  | alreadyExited : ProcStopOutcome
  | lookupFailed : ProcStopOutcome
  | signalRaised : ProcStopOutcome

/-- `preview_service.stop_preview`: whichever signalling path is taken —
including no recorded process at all, where only a log line is emitted —
the four preview state fields are cleared afterwards. The signalling
branches touch only the OS process and the log, never the session
state, so each arm of the match leaves the state unchanged before the
final clearing assignments. -/
def stop_preview (b : ProcStopOutcome) (st : AppState) : AppState :=
  let st1 :=
    match st.preview_process with
    | some _ =>
      match b with
      | ProcStopOutcome.terminated => st
      | ProcStopOutcome.killedAfterTimeout => st
      | ProcStopOutcome.alreadyExited => st
      | ProcStopOutcome.lookupFailed => st
      | ProcStopOutcome.signalRaised => st
    | none => st
  { st1 with preview_process := none, preview_port := none,
             preview_url := none, preview_file := none }

/-! ## Manual delete handler (`app.py`, `confirm_delete_yes` button) -/

/-- The `Yes, Delete` confirmation handler in `app.py`: delete the
selected file; on success, stop the preview when it was bound to that
file, then clear the editor state. -/
def confirm_delete_yes (b : ProcStopOutcome) (st : AppState) : AppState :=
  match st.selected_file with
  | none => st
  | some fn =>
    let res := delete_file_from_workspace fn st.fs
    let st1 : AppState := { st with fs := res.2 }
    if res.1 then
      let st2 : AppState :=
        if st1.preview_file = some fn then stop_preview b st1 else st1
      { st2 with selected_file := none, file_content_on_load := [],
                 editor_unsaved_content := [], last_saved_content := [] }
    else st1

/-! ## Conversation adapter (`services/gemini_service.ask_gemini_ai`)

The backend call `model.generate_content(...)` is an oracle: it either
returns raw text or raises an exception whose `str` is `msg`. The
client may be unconfigured (`_initialize_gemini_client` returned
`None`). -/

inductive BackendResult where
  | ok : List Char → BackendResult
  | raises : List Char → BackendResult

inductive PyResult (α : Type) where
  | ret : α → PyResult α
  | raise : List Char → PyResult α
deriving DecidableEq

/-- Python `sep.join(parts)`. -/
def pyJoin (sep : List Char) : List (List Char) → List Char
  | [] => []
  | [p] => p
  | p :: rest => p ++ sep ++ pyJoin sep rest

/-- The rendered `GEMINI_SYSTEM_PROMPT_TEMPLATE` from `config/settings.py`:
the f-string evaluates at import time, turning every doubled brace into a
single one, so the rendered text contains literal single-brace JSON
examples that are replacement fields for a later `str.format`. -/
def GEMINI_SYSTEM_PROMPT_TEMPLATE : List Char :=
  (""
    ++ "\n"
    ++ "You are an AI assistant specialized in creating and managing Python files for Streamlit applications.\n"
    ++ "Your primary goal is to accurately interpret user requests and translate them into file operations within a designated workspace.\n"
    ++ "Respond *only* with a valid JSON array of command objects. Do not include any explanatory text, markdown formatting (like ```json), or any other content outside of this JSON array.\n"
    ++ "\n"
    ++ "Available commands:\n"
    ++ "1.  `\x7b\"action\": \"create_update\", \"filename\": \"app_name.py\", \"content\": \"FULL_PYTHON_CODE_HERE\"\x7d`\n"
    ++ "    - Use this command to create a new Python file or completely overwrite an existing one.\n"
    ++ "    - The \"filename\" must be a valid Python file name (e.g., `my_app.py`).\n"
    ++ "    - The \"content\" must be the *complete and entire* Python code for the file.\n"
    ++ "    - Ensure all special characters in the \"content\" string are properly escaped for JSON:\n"
    ++ "        - Backslashes (`\\`) must be escaped as `\\\\`.\n"
    ++ "        - Double quotes (`\"`) must be escaped as `\\\"`.\n"
    ++ "        - Newlines must be represented as `\\n`.\n"
    ++ "    - Do *not* include ```python markdown blocks or shebangs (`#!/usr/bin/env python`) in the \"content\" field.\n"
    ++ "\n"
    ++ "2.  `\x7b\"action\": \"delete\", \"filename\": \"old_app.py\"\x7d`\n"
    ++ "    - Use this command to delete a specified Python file from the workspace.\n"
    ++ "    - The \"filename\" must be the exact name of the file to be deleted.\n"
    ++ "\n"
    ++ "3.  `\x7b\"action\": \"chat\", \"content\": \"Your message here.\"\x7d`\n"
    ++ "    - Use this command *only* if:\n"
    ++ "        - You need to ask for clarification on an ambiguous user request.\n"
    ++ "        - You encounter an issue you cannot resolve with file actions (e.g., a conceptual problem with the request).\n"
    ++ "        - You need to confirm understanding before performing a significant or destructive action.\n"
    ++ "        - You want to provide a status update or a simple acknowledgement.\n"
    ++ "\n"
    ++ "Current Python files in workspace: \x7bfile_list\x7d\n"
    ++ "\n"
    ++ "Example Interaction:\n"
    ++ "User: Create a simple hello world app called hello.py\n"
    ++ "AI: `[\x7b\"action\": \"create_update\", \"filename\": \"hello.py\", \"content\": \"import streamlit as st\\n\\nst.title(\x27Hello World!\x27)\\nst.write(\x27This is a simple app.\x27)\"\x7d`\n"
    ++ "\n"
    ++ "User: Delete the app named old_app.py\n"
    ++ "AI: `[\x7b\"action\": \"delete\", \"filename\": \"old_app.py\"\x7d]`\n"
    ++ "\n"
    ++ "User: I\x27m not sure what to do next.\n"
    ++ "AI: `[\x7b\"action\": \"chat\", \"content\": \"I can help you create or modify Streamlit apps. What would you like to build today?\"\x7d]`\n"
    ++ "\n"
    ++ "Important Rules:\n"
    ++ "- Your entire response *must* be a single JSON array `[...]`.\n"
    ++ "- Do not add any text before or after the JSON array.\n"
    ++ "- If multiple actions are needed for a single user request (e.g., delete one file and create another), include them as separate command objects within the same JSON array.\n"
    ++ "- Adhere strictly to the command formats specified.\n"
  ).toList

mutual

/-- Python `template.format(key=value)`, as called at
`gemini_service.py:107`, scanning the template: `{{` and `}}` are brace
escapes; `{` opens a replacement field; a lone `}` raises `ValueError`. -/
def pyFormatScan (t key value acc : List Char) : Except (List Char) (List Char) :=
  match t with
  | [] => Except.ok acc.reverse
  | '\x7b' :: '\x7b' :: rest => pyFormatScan rest key value ( '\x7b' :: acc)
  | '\x7d' :: '\x7d' :: rest => pyFormatScan rest key value ( '\x7d' :: acc)
  | '\x7b' :: rest => pyFormatField rest [] key value acc
  | '\x7d' :: _ => Except.error "ValueError".toList
  | c :: rest => pyFormatScan rest key value (c :: acc)
termination_by structural t

/-- Inside a replacement field: the argument name runs to the first `.`,
`[`, `!`, `:` or `}`; naming anything other than the supplied keyword
raises `KeyError` (CPython looks the argument name up in the keyword
arguments before applying any conversion or format spec). An
unterminated field raises `ValueError`. -/
def pyFormatField (t nameAcc key value acc : List Char) :
    Except (List Char) (List Char) :=
  match t with
  | [] => Except.error "ValueError".toList
  | c :: rest =>
    if c = '\x7d' then
      if nameAcc.reverse = key then pyFormatScan rest key value (value.reverse ++ acc)
      else Except.error ("KeyError: ".toList ++ nameAcc.reverse)
    else if c = '.' || c = '[' || c = '!' || c = ':' then
      if nameAcc.reverse = key then pyFormatSpec rest key value acc
      else Except.error ("KeyError: ".toList ++ nameAcc.reverse)
    else pyFormatField rest (c :: nameAcc) key value acc
termination_by structural t

/-- Conversion / format-spec / attribute tail of a field whose argument
name matched the keyword: skipped up to the closing brace, substituting
the raw value (spec application is not modelled — the template has no
keyword-matching field with a spec, and its scan raises `KeyError` at
the first field long before one could be reached). -/
def pyFormatSpec (t key value acc : List Char) : Except (List Char) (List Char) :=
  match t with
  | [] => Except.error "ValueError".toList
  | c :: rest =>
    if c = '\x7d' then pyFormatScan rest key value (value.reverse ++ acc)
    else pyFormatSpec rest key value acc
termination_by structural t

end

/-- Python `t.format(key=value)`. -/
def pyFormat (t key value : List Char) : Except (List Char) (List Char) :=
  pyFormatScan t key value []

/-- `gemini_service.ask_gemini_ai`. With no client it returns a dumped
synthetic chat command (line 100). Otherwise it interpolates the current
file listing into the system prompt template (line 107): the rendered
template contains literal single-brace JSON examples, whose first
replacement field is `{"action"...}`, so this `format` call raises
`KeyError` on every input; line 108 catches it and returns the
prompt-configuration chat command — the backend is never called. The
backend branch (lines 116–137) is still embedded as written: were it
reached with an exception message matching neither the key/permission
patterns nor the quota patterns, the handler would dereference the
never-bound local `response` (lines 130–133) and raise
`UnboundLocalError`; that code is dead behind the always-raising
`format`. The `chat_history` argument is only consumed by
`_prepare_gemini_history` at line 113, which no reachable path
executes. -/
def ask_gemini_ai (clientConfigured : Bool) (backend : BackendResult)
    (_chat_history : List (List Char × List Char))
    (current_workspace_files : List (List Char)) : PyResult (List Char) :=
  if !clientConfigured then
    PyResult.ret (Json.dumps (Json.arr [chatObj
      "AI Error: Gemini client is not initialized. Please check API key and configuration.".toList]))
  else
    let file_list_str :=
      if current_workspace_files.isEmpty then "None".toList
      else pyJoin ", ".toList current_workspace_files
    match pyFormat GEMINI_SYSTEM_PROMPT_TEMPLATE "file_list".toList file_list_str with
    | Except.error _ =>
      PyResult.ret (Json.dumps (Json.arr [chatObj
        "AI Error: System prompt configuration issue.".toList]))
    | Except.ok _ =>
      match backend with
      | BackendResult.ok t => PyResult.ret t
      | BackendResult.raises msg =>
        let lower := pyLower msg
        if pyContains lower "API key not valid".toList
            || pyContains lower "permission_denied".toList then
          PyResult.ret (Json.dumps (Json.arr [chatObj
            "AI Error: Invalid or missing Google API Key. Please check your configuration.".toList]))
        else if pyContains msg "429".toList || pyContains lower "quota".toList
            || pyContains lower "resource has been exhausted".toList then
          PyResult.ret (Json.dumps (Json.arr [chatObj
            "AI Error: API Quota or Rate Limit Exceeded. Please try again later or check your Google Cloud project quotas.".toList]))
        else
          PyResult.raise "UnboundLocalError".toList

/-! ## Store lemmas -/

theorem fsGet_fsSet_self (fs : FS) (f : FileName) (c : List Char) :
    fsGet (fsSet fs f c) f = some c := by
  induction fs with
  | nil => simp [fsSet, fsGet]
  | cons kv rest ih =>
      obtain ⟨k, v⟩ := kv
      by_cases h : k = f
      · simp [fsSet, fsGet, h]
      · simp [fsSet, fsGet, h, ih]

theorem fsGet_fsErase_self (fs : FS) (f : FileName) :
    fsGet (fsErase fs f) f = none := by
  induction fs with
  | nil => simp [fsErase, fsGet]
  | cons kv rest ih =>
      obtain ⟨k, v⟩ := kv
      by_cases h : k = f
      · simpa [fsErase, fsGet, h] using ih
      · simpa [fsErase, fsGet, h] using ih

/-! ## Claim C1 — adapter never raises, always returns decodable chat JSON -/

set_option maxRecDepth 4000 in
/-- Claim C1: for every chat history, workspace listing and backend
behaviour, `ask_gemini_ai` never raises past its own boundary: it
returns the dump of a single synthetic chat command array, and that
text decodes through the command codec. An unconfigured client yields
the missing-client message; a configured client yields the
prompt-configuration message, because the template `format` call
raises `KeyError` before the backend is ever called — so no backend
exception can surface. -/
theorem ask_gemini_ai_always_returns_chat_json (cfg : Bool) (backend : BackendResult)
    (history : List (List Char × List Char)) (files : List (List Char)) :
    ∃ m, ask_gemini_ai cfg backend history files
        = PyResult.ret (Json.dumps (Json.arr [chatObj m])) ∧
      decode_ai_response (Json.dumps (Json.arr [chatObj m])) = some (Json.arr [chatObj m]) := by
  cases cfg with
  | false =>
    exact ⟨"AI Error: Gemini client is not initialized. Please check API key and configuration.".toList,
      rfl, by rfl⟩
  | true =>
    exact ⟨"AI Error: System prompt configuration issue.".toList, rfl, by rfl⟩

/-! ## Claim C2 — preview must not survive deletion of its file -/

/-- A session with `a.py` in the workspace and a running preview bound to
`a.py`. -/
def previewState : AppState :=
  { initState [("a.py".toList, "old".toList)] with
      preview_process := some 1, preview_port := some 8502,
      preview_url := some "http://localhost:8502".toList,
      preview_file := some "a.py".toList }

/-- The AI batch `[{"action": "delete", "filename": "a.py"}]`. -/
def aiDeleteBatch : List Char :=
  "[\x7b\"action\": \"delete\", \"filename\": \"a.py\"\x7d]".toList

/-- Claim C2: the claim states every delete path of the file bound to a
running preview triggers `stop()`. The AI-batch delete path does not:
executing the delete batch removes `a.py` from the workspace, yet the
preview process handle and bound filename survive in the session state
(the executor's comment defers the stop to `app.py`, which never checks).
The manual confirm-delete handler, by contrast, does clear it (last
conjunct). -/
theorem ai_delete_leaves_preview_running :
    fsGet (parse_and_execute_ai_commands aiDeleteBatch previewState).2.fs "a.py".toList = none ∧
    (parse_and_execute_ai_commands aiDeleteBatch previewState).2.preview_process = some 1 ∧
    (parse_and_execute_ai_commands aiDeleteBatch previewState).2.preview_file
      = some "a.py".toList ∧
    (confirm_delete_yes ProcStopOutcome.terminated
        { previewState with selected_file := some "a.py".toList }).preview_process = none :=
  ⟨rfl, rfl, rfl, rfl⟩

/-! ## Claim C3 — write/read round trip -/

/-- Claim C4 counterexample: `sub/a.py` contains a directory separator yet
is not rejected — `save_file` succeeds and writes the nested path, and
`delete_file_from_workspace` succeeds and removes it. -/
theorem slash_filename_passes_validation :
    pyContains "sub/a.py".toList "/".toList = true ∧
    save_file "sub/a.py".toList "x".toList [] = (true, [("sub/a.py".toList, "x".toList)]) ∧
    delete_file_from_workspace "sub/a.py".toList [("sub/a.py".toList, "x".toList)] =
      (true, []) :=
  ⟨rfl, rfl, rfl⟩

/-- Claim C4 (amended): the store validation accepts exactly the
non-empty names without `..` and without a leading `/` or `\` (for
`save_file`, additionally ending in `.py`); a separator later in the
name is not rejected. -/
theorem store_validation_characterization (f c : List Char) (fs : FS) :
    (save_file f c fs).1 = (!f.isEmpty && !invalid_path f && has_py_ext f) ∧
    (delete_file_from_workspace f fs).1 = (!f.isEmpty && !invalid_path f) := by
  constructor
  · unfold save_file
    cases h1 : f.isEmpty <;> cases h2 : invalid_path f <;>
      cases h3 : has_py_ext f <;> simp [h1, h2, h3]
  · unfold delete_file_from_workspace
    cases h1 : f.isEmpty <;> cases h2 : invalid_path f <;>
      cases h4 : (fsGet fs f).isSome <;> simp [h1, h2, h4]

/-! ## Claim C5 — traversal names rejected by read, write and delete -/

/-- Claim C5: a filename containing `..` or beginning with `/` or `\` is
rejected by all three store operations with the invalid-name outcome and
no change to the workspace. -/
theorem traversal_names_rejected_everywhere (f c : List Char) (fs : FS)
    (h : pyContains f "..".toList = true ∨ pyStartsWith f "/".toList = true ∨
         pyStartsWith f "\\".toList = true) :
    save_file f c fs = (false, fs) ∧ read_file f fs = none ∧
    delete_file_from_workspace f fs = (false, fs) := by
  have h2 : invalid_path f = true := by
    unfold invalid_path
    rcases h with h | h | h
    · rw [h]; rfl
    · rw [h]; simp
    · rw [h]; simp
  cases h1 : f.isEmpty with
  | true => exact ⟨by simp [save_file, h1], by simp [read_file, h1],
      by simp [delete_file_from_workspace, h1]⟩
  | false => exact ⟨by simp [save_file, h1, h2], by simp [read_file, h1, h2],
      by simp [delete_file_from_workspace, h1, h2]⟩

/-- Witness for C5 at `f = "../evil.py"`. -/
theorem traversal_names_rejected_everywhere_witness :
    (pyContains "../evil.py".toList "..".toList = true ∨
     pyStartsWith "../evil.py".toList "/".toList = true ∨
     pyStartsWith "../evil.py".toList "\\".toList = true) ∧
    (save_file "../evil.py".toList "x".toList [] = (false, []) ∧
     read_file "../evil.py".toList [] = none ∧
     delete_file_from_workspace "../evil.py".toList [] = (false, [])) :=
  ⟨Or.inl rfl,
    traversal_names_rejected_everywhere "../evil.py".toList "x".toList [] (Or.inl rfl)⟩

/-! ## Claim C6 — top-level protocol errors abort the batch -/

/-- Claim C6: when the fence-stripped response is not valid JSON, or is
valid JSON but not an array, `parse_and_execute_ai_commands` mutates
nothing and returns exactly one synthetic chat outcome. -/
theorem protocol_error_aborts_batch (t : List Char) (st : AppState)
    (h : json_loads (clean_ai_response_text t) = none ∨
         ∃ v, json_loads (clean_ai_response_text t) = some v ∧ v.isArr = false) :
    (parse_and_execute_ai_commands t st).2 = st ∧
    (parse_and_execute_ai_commands t st).1.length = 1 ∧
    ∃ m, (parse_and_execute_ai_commands t st).1 = [chatObj m] := by
  unfold parse_and_execute_ai_commands
  rcases h with h | ⟨v, hv, hna⟩
  · rw [h]
    exact ⟨rfl, rfl, _, rfl⟩
  · rw [hv]
    cases v with
    | arr vs => simp [Json.isArr] at hna
    | null => exact ⟨rfl, rfl, _, rfl⟩
    | bool b => exact ⟨rfl, rfl, _, rfl⟩
    | num l => exact ⟨rfl, rfl, _, rfl⟩
    | str s => exact ⟨rfl, rfl, _, rfl⟩
    | obj kvs => exact ⟨rfl, rfl, _, rfl⟩

/-- Witness for C6 at the non-JSON response `frobnicate` over a fresh
session with an empty workspace. -/
theorem protocol_error_aborts_batch_witness :
    (json_loads (clean_ai_response_text "frobnicate".toList) = none ∨
      ∃ v, json_loads (clean_ai_response_text "frobnicate".toList) = some v ∧
        v.isArr = false) ∧
    ((parse_and_execute_ai_commands "frobnicate".toList (initState [])).2 = initState [] ∧
     (parse_and_execute_ai_commands "frobnicate".toList (initState [])).1.length = 1 ∧
     ∃ m, (parse_and_execute_ai_commands "frobnicate".toList (initState [])).1 = [chatObj m]) :=
  ⟨Or.inl rfl, protocol_error_aborts_batch "frobnicate".toList (initState []) (Or.inl rfl)⟩

/-! ## Claim C7 — commands apply strictly in array order -/

/-- The decoded command `{"action": "delete", "filename": "a.py"}`. -/
def cmdDel : Json := Json.obj [("action".toList, Json.str "delete".toList),
                               ("filename".toList, Json.str "a.py".toList)]

/-- The decoded command
`{"action": "create_update", "filename": "a.py", "content": "x"}`. -/
def cmdCre : Json := Json.obj [("action".toList, Json.str "create_update".toList),
                               ("filename".toList, Json.str "a.py".toList),
                               ("content".toList, Json.str "x".toList)]

/-- One executor step on `cmdDel` when `a.py` exists: delete succeeds,
the workspace loses `a.py`, and the editor state is cleared when `a.py`
was the selected file. -/
theorem exec_command_cmdDel (st : AppState)
    (hso : (fsGet st.fs [ 'a', '.', 'p', 'y' ]).isSome = true) :
    exec_command st cmdDel = Except.ok (setStatus cmdDel "success".toList,
      if st.selected_file = some [ 'a', '.', 'p', 'y' ] then
        { st with fs := fsErase st.fs [ 'a', '.', 'p', 'y' ], selected_file := none,
                  file_content_on_load := [], editor_unsaved_content := [],
                  last_saved_content := [] }
      else { st with fs := fsErase st.fs [ 'a', '.', 'p', 'y' ] }) := by
  have hA : delete_file_from_workspace [ 'a', '.', 'p', 'y' ] st.fs =
      (true, fsErase st.fs [ 'a', '.', 'p', 'y' ]) := by
    show (if (fsGet st.fs [ 'a', '.', 'p', 'y' ]).isSome = true
          then ((true : Bool), fsErase st.fs [ 'a', '.', 'p', 'y' ])
          else ((true : Bool), st.fs)) = (true, fsErase st.fs [ 'a', '.', 'p', 'y' ])
    rw [hso, if_pos rfl]
  simp [exec_command, cmdDel, jsonGet, assocGetLast, jsonIsStr, jsonTruthy, hA, setStatus]

/-- One executor step on `cmdCre`: the save succeeds unconditionally and
the editor buffers are refreshed when `a.py` was the selected file. -/
theorem exec_command_cmdCre (st : AppState) :
    exec_command st cmdCre = Except.ok (setStatus cmdCre "success".toList,
      if st.selected_file = some [ 'a', '.', 'p', 'y' ] then
        { st with fs := fsSet st.fs [ 'a', '.', 'p', 'y' ] [ 'x' ],
                  file_content_on_load := [ 'x' ],
                  editor_unsaved_content := [ 'x' ],
                  last_saved_content := [ 'x' ] }
      else { st with fs := fsSet st.fs [ 'a', '.', 'p', 'y' ] [ 'x' ] }) := by
  have hB : save_file [ 'a', '.', 'p', 'y' ] [ 'x' ] st.fs =
      (true, fsSet st.fs [ 'a', '.', 'p', 'y' ] [ 'x' ]) := rfl
  have hpy : has_py_ext [ 'a', '.', 'p', 'y' ] = true := rfl
  simp [exec_command, cmdCre, jsonGet, assocGetLast, jsonIsStr, jsonTruthy,
        contentNotNone, hB, hpy, setStatus]

/-- The raw batch `[Delete("a.py"), CreateOrUpdate("a.py", "x")]`. -/
def batchDeleteCreate : List Char :=
  "[\x7b\"action\": \"delete\", \"filename\": \"a.py\"\x7d, \x7b\"action\": \"create_update\", \"filename\": \"a.py\", \"content\": \"x\"\x7d]".toList

/-- The raw batch `[CreateOrUpdate("a.py", "x"), Delete("a.py")]`. -/
def batchCreateDelete : List Char :=
  "[\x7b\"action\": \"create_update\", \"filename\": \"a.py\", \"content\": \"x\"\x7d, \x7b\"action\": \"delete\", \"filename\": \"a.py\"\x7d]".toList

/-- Claim C7: on any session whose workspace holds `a.py`, the
delete-then-create batch leaves `a.py` with content `x`, while the
create-then-delete batch leaves no `a.py`. -/
theorem commands_apply_in_array_order (st : AppState) (c : List Char)
    (h : fsGet st.fs [ 'a', '.', 'p', 'y' ] = some c) :
    fsGet (parse_and_execute_ai_commands batchDeleteCreate st).2.fs [ 'a', '.', 'p', 'y' ]
      = some [ 'x' ] ∧
    fsGet (parse_and_execute_ai_commands batchCreateDelete st).2.fs [ 'a', '.', 'p', 'y' ]
      = none := by
  have hso : (fsGet st.fs [ 'a', '.', 'p', 'y' ]).isSome = true := by rw [h]; rfl
  have hp1 : json_loads (clean_ai_response_text batchDeleteCreate)
      = some (Json.arr [cmdDel, cmdCre]) := by rfl
  have hp2 : json_loads (clean_ai_response_text batchCreateDelete)
      = some (Json.arr [cmdCre, cmdDel]) := by rfl
  constructor
  · unfold parse_and_execute_ai_commands
    rw [hp1]
    by_cases hsel : st.selected_file = some [ 'a', '.', 'p', 'y' ] <;>
      simp [exec_commands, exec_command_cmdDel, exec_command_cmdCre, hso, hsel,
            fsGet_fsSet_self, fsGet_fsErase_self]
  · unfold parse_and_execute_ai_commands
    rw [hp2]
    by_cases hsel : st.selected_file = some [ 'a', '.', 'p', 'y' ] <;>
      simp [exec_commands, exec_command_cmdDel, exec_command_cmdCre, hso, hsel,
            fsGet_fsSet_self, fsGet_fsErase_self]

/-- Witness for C7 on the workspace holding `a.py ↦ o`. -/
theorem commands_apply_in_array_order_witness :
    fsGet [([ 'a', '.', 'p', 'y' ], [ 'o' ])] [ 'a', '.', 'p', 'y' ] = some [ 'o' ] ∧
    (fsGet (parse_and_execute_ai_commands batchDeleteCreate
        (initState [([ 'a', '.', 'p', 'y' ], [ 'o' ])])).2.fs [ 'a', '.', 'p', 'y' ]
      = some [ 'x' ] ∧
     fsGet (parse_and_execute_ai_commands batchCreateDelete
        (initState [([ 'a', '.', 'p', 'y' ], [ 'o' ])])).2.fs [ 'a', '.', 'p', 'y' ]
      = none) :=
  ⟨rfl, commands_apply_in_array_order (initState [([ 'a', '.', 'p', 'y' ], [ 'o' ])])
    [ 'o' ] rfl⟩

/-! ## Claim C8 — a fence wrapper never changes the decoded batch -/

/-- `pyStrip` is the identity on a string whose first and last characters
are not whitespace. -/
theorem pyStrip_sandwich (a b : Char) (x : List Char)
    (ha : isPySpace a = false) (hb : isPySpace b = false) :
    pyStrip (a :: (x ++ [b])) = a :: (x ++ [b]) := by
  unfold pyStrip
  rw [List.dropWhile_cons]
  simp only [ha, Bool.false_eq_true, if_false]
  rw [show (a :: (x ++ [b])).reverse = b :: (x.reverse ++ [a]) from by simp]
  rw [List.dropWhile_cons]
  simp [hb]

/-- Stripping the newline padding left by fence removal around a JSON
array recovers the array text exactly. -/
theorem strip_inner_newlines (mid : List Char) :
    pyStrip ( '\n' :: (( '[' :: (mid ++ [ ']' ])) ++ [ '\n' ])) = '[' :: (mid ++ [ ']' ]) := by
  unfold pyStrip
  rw [List.dropWhile_cons]
  simp only [show isPySpace '\n' = true from rfl, if_true]
  rw [show (( '[' :: (mid ++ [ ']' ])) ++ [ '\n' ] : List Char)
      = '[' :: ((mid ++ [ ']' ]) ++ [ '\n' ]) from rfl]
  rw [List.dropWhile_cons]
  simp only [show isPySpace '[' = false from rfl, Bool.false_eq_true, if_false]
  rw [show ( '[' :: ((mid ++ [ ']' ]) ++ [ '\n' ])).reverse
      = '\n' :: ( ']' :: (mid.reverse ++ [ '[' ])) from by simp]
  rw [List.dropWhile_cons]
  simp only [show isPySpace '\n' = true from rfl, if_true]
  rw [List.dropWhile_cons]
  simp only [show isPySpace ']' = false from rfl, Bool.false_eq_true, if_false]
  simp

/-- The `text[7:-3]` slice of a ```` ```json ```` fenced payload. -/
theorem slice_json_fence (p : List Char) :
    pySlice 7 3 ("```json\n".toList ++ (p ++ "\n```".toList)) = '\n' :: (p ++ [ '\n' ]) := by
  unfold pySlice
  have hlen : ("```json\n".toList ++ (p ++ "\n```".toList)).length - 7 - 3 = p.length + 2 := by
    simp [List.length_append]
  rw [hlen]
  rw [show List.drop 7 ("```json\n".toList ++ (p ++ "\n```".toList))
      = '\n' :: (p ++ "\n```".toList) from rfl]
  show '\n' :: List.take (p.length + 1) (p ++ "\n```".toList) = '\n' :: (p ++ [ '\n' ])
  congr 1
  rw [List.take_append]
  rfl

/-- The `text[3:-3]` slice of a bare ```` ``` ```` fenced payload. -/
theorem slice_bare_fence (p : List Char) :
    pySlice 3 3 ("```\n".toList ++ (p ++ "\n```".toList)) = '\n' :: (p ++ [ '\n' ]) := by
  unfold pySlice
  have hlen : ("```\n".toList ++ (p ++ "\n```".toList)).length - 3 - 3 = p.length + 2 := by
    simp [List.length_append]
  rw [hlen]
  rw [show List.drop 3 ("```\n".toList ++ (p ++ "\n```".toList))
      = '\n' :: (p ++ "\n```".toList) from rfl]
  show '\n' :: List.take (p.length + 1) (p ++ "\n```".toList) = '\n' :: (p ++ [ '\n' ])
  congr 1
  rw [List.take_append]
  rfl

/-- The fence stripper removes a ```` ```json ```` wrapper around a JSON
array payload exactly. -/
theorem clean_json_fence (mid : List Char) :
    clean_ai_response_text
        ("```json\n".toList ++ (( '[' :: (mid ++ [ ']' ])) ++ "\n```".toList))
      = '[' :: (mid ++ [ ']' ]) := by
  have hw : ("```json\n".toList ++ (( '[' :: (mid ++ [ ']' ])) ++ "\n```".toList) : List Char)
      = Char.ofNat 96 ::
          (("``json\n".toList ++ (( '[' :: (mid ++ [ ']' ])) ++ "\n``".toList))
            ++ [Char.ofNat 96]) := by
    simp [List.append_assoc]
  have hstrip : pyStrip ("```json\n".toList ++ (( '[' :: (mid ++ [ ']' ])) ++ "\n```".toList))
      = "```json\n".toList ++ (( '[' :: (mid ++ [ ']' ])) ++ "\n```".toList) := by
    rw [hw]; exact pyStrip_sandwich _ _ _ rfl rfl
  have hrev : ("```json\n".toList ++ (( '[' :: (mid ++ [ ']' ])) ++ "\n```".toList)).reverse
      = "```\n".toList ++ (( ']' :: (mid.reverse ++ [ '[' ])) ++ "\nnosj```".toList) := by
    simp
  have h2 : pyEndsWith ("```json\n".toList ++ (( '[' :: (mid ++ [ ']' ])) ++ "\n```".toList))
      "```".toList = true := by
    unfold pyEndsWith
    rw [hrev]
    rfl
  have hcond : (pyStartsWith
        ("```json\n".toList ++ (( '[' :: (mid ++ [ ']' ])) ++ "\n```".toList)) "```json".toList
      && pyEndsWith ("```json\n".toList ++ (( '[' :: (mid ++ [ ']' ])) ++ "\n```".toList))
        "```".toList) = true := by
    rw [h2]
    rfl
  unfold clean_ai_response_text
  rw [hstrip, if_pos hcond, slice_json_fence]
  exact strip_inner_newlines mid

/-- The fence stripper removes a bare ```` ``` ```` wrapper around a JSON
array payload exactly. -/
theorem clean_bare_fence (mid : List Char) :
    clean_ai_response_text
        ("```\n".toList ++ (( '[' :: (mid ++ [ ']' ])) ++ "\n```".toList))
      = '[' :: (mid ++ [ ']' ]) := by
  have hw : ("```\n".toList ++ (( '[' :: (mid ++ [ ']' ])) ++ "\n```".toList) : List Char)
      = Char.ofNat 96 ::
          (("``\n".toList ++ (( '[' :: (mid ++ [ ']' ])) ++ "\n``".toList))
            ++ [Char.ofNat 96]) := by
    simp [List.append_assoc]
  have hstrip : pyStrip ("```\n".toList ++ (( '[' :: (mid ++ [ ']' ])) ++ "\n```".toList))
      = "```\n".toList ++ (( '[' :: (mid ++ [ ']' ])) ++ "\n```".toList) := by
    rw [hw]; exact pyStrip_sandwich _ _ _ rfl rfl
  have hrev : ("```\n".toList ++ (( '[' :: (mid ++ [ ']' ])) ++ "\n```".toList)).reverse
      = "```\n".toList ++ (( ']' :: (mid.reverse ++ [ '[' ])) ++ "\n```".toList) := by
    simp
  have h2 : pyEndsWith ("```\n".toList ++ (( '[' :: (mid ++ [ ']' ])) ++ "\n```".toList))
      "```".toList = true := by
    unfold pyEndsWith
    rw [hrev]
    rfl
  have hc1 : (pyStartsWith
        ("```\n".toList ++ (( '[' :: (mid ++ [ ']' ])) ++ "\n```".toList)) "```json".toList
      && pyEndsWith ("```\n".toList ++ (( '[' :: (mid ++ [ ']' ])) ++ "\n```".toList))
        "```".toList) = false := rfl
  have hc2 : (pyStartsWith
        ("```\n".toList ++ (( '[' :: (mid ++ [ ']' ])) ++ "\n```".toList)) "```".toList
      && pyEndsWith ("```\n".toList ++ (( '[' :: (mid ++ [ ']' ])) ++ "\n```".toList))
        "```".toList) = true := by
    rw [h2]
    rfl
  unfold clean_ai_response_text
  rw [hstrip, if_neg (by rw [hc1]; decide), if_pos hc2, slice_bare_fence]
  exact strip_inner_newlines mid

/-- The fence stripper is the identity on an unwrapped JSON array
payload. -/
theorem clean_plain_array (mid : List Char) :
    clean_ai_response_text ( '[' :: (mid ++ [ ']' ])) = '[' :: (mid ++ [ ']' ]) := by
  have hstrip : pyStrip ( '[' :: (mid ++ [ ']' ])) = '[' :: (mid ++ [ ']' ]) :=
    pyStrip_sandwich '[' ']' mid rfl rfl
  have hc1 : (pyStartsWith ( '[' :: (mid ++ [ ']' ])) "```json".toList
      && pyEndsWith ( '[' :: (mid ++ [ ']' ])) "```".toList) = false := rfl
  have hc2 : (pyStartsWith ( '[' :: (mid ++ [ ']' ])) "```".toList
      && pyEndsWith ( '[' :: (mid ++ [ ']' ])) "```".toList) = false := rfl
  unfold clean_ai_response_text
  rw [hstrip, if_neg (by rw [hc1]; decide), if_neg (by rw [hc2]; decide)]

/-- Claim C8: wrapping a JSON-array payload in a ```` ```json ```` or bare
```` ``` ```` markdown fence decodes to exactly the same parsed sequence
as the unwrapped payload; in particular for the chat example from the
protocol. -/
theorem fence_wrapped_payload_decodes_same :
    (∀ mid : List Char,
      decode_ai_response
          ("```json\n".toList ++ (( '[' :: (mid ++ [ ']' ])) ++ "\n```".toList))
        = decode_ai_response ( '[' :: (mid ++ [ ']' ])) ∧
      decode_ai_response
          ("```\n".toList ++ (( '[' :: (mid ++ [ ']' ])) ++ "\n```".toList))
        = decode_ai_response ( '[' :: (mid ++ [ ']' ]))) ∧
    decode_ai_response "```json\n[\x7b\"action\":\"chat\",\"content\":\"hi\"\x7d]\n```".toList
      = decode_ai_response "[\x7b\"action\":\"chat\",\"content\":\"hi\"\x7d]".toList := by
  constructor
  · intro mid
    constructor
    · unfold decode_ai_response
      rw [clean_json_fence mid, clean_plain_array mid]
    · unfold decode_ai_response
      rw [clean_bare_fence mid, clean_plain_array mid]
  · rfl

/-! ## Claim C9 — stop_preview clears all preview state on every path -/

/-- Claim C9: on every signalling outcome — including no recorded process
at all, where the call is a pure no-op apart from the field clearing —
`stop_preview` sets all four preview fields to `None` and touches
nothing else in the session. -/
theorem stop_preview_always_clears_state (b : ProcStopOutcome) (st : AppState) :
    (stop_preview b st).preview_process = none ∧
    (stop_preview b st).preview_port = none ∧
    (stop_preview b st).preview_url = none ∧
    (stop_preview b st).preview_file = none ∧
    (stop_preview b st).fs = st.fs ∧
    (stop_preview b st).selected_file = st.selected_file ∧
    (stop_preview b st).file_content_on_load = st.file_content_on_load ∧
    (stop_preview b st).editor_unsaved_content = st.editor_unsaved_content ∧
    (stop_preview b st).last_saved_content = st.last_saved_content := by
  cases hp : st.preview_process <;> cases b <;> simp [stop_preview, hp]

/-! ## Claim C10 — a saved file the listing never shows -/

/-- Claim C10: the three-character name `.py` passes `save_file`'s
validation and is written into the workspace, yet
`get_workspace_python_files` never lists it, because its `pathlib`
suffix is empty. A successful write therefore does not guarantee the
file appears in the listing. -/
theorem dot_py_saved_but_never_listed :
    (save_file ".py".toList "x".toList []).1 = true ∧
    fsGet (save_file ".py".toList "x".toList []).2 ".py".toList = some "x".toList ∧
    get_workspace_python_files (save_file ".py".toList "x".toList []).2 = [] :=
  ⟨rfl, rfl, rfl⟩
